import Mathlib

/-!
Shallow embedding of the SmartFinance AI insights engine
(`ai_insights_engine.py`) and proofs about its specified behaviour.

Modelling conventions:
* Monetary amounts and all derived statistics are exact rationals; the
  Python floats are modelled by their ideal decimal semantics.
* Timestamps are day-granular calendar dates (the input schema feeds
  date-only strings through `pd.to_datetime`); the implicit wall clock
  `pd.Timestamp.now` is threaded through as an explicit epoch-day
  parameter `now`.
* Sample standard deviations (ddof = 1, the pandas default) enter the
  code only inside comparisons and the three volatility sub-scores; the
  comparisons are embedded by their exact square-free equivalents over
  the rationals, the sub-score values use `Real.sqrt`.
* `Exception`-capable pandas operations are embedded in `Except String`;
  the single top-level `try/except` of `analyze_transactions` becomes a
  `match` on the pipeline result.
-/

set_option allowUnsafeReducibility true in
attribute [semireducible] Rat.add Rat.mul Rat.div Rat.inv Rat.sub Rat.neg Rat.blt

namespace SmartFinance

instance {ε α : Type} [DecidableEq ε] [DecidableEq α] : DecidableEq (Except ε α) := fun x y =>
  match x, y with
  | Except.ok a, Except.ok b =>
    if h : a = b then Decidable.isTrue (by rw [h]) else Decidable.isFalse (by simp [h])
  | Except.error e, Except.error f =>
    if h : e = f then Decidable.isTrue (by rw [h]) else Decidable.isFalse (by simp [h])
  | Except.ok _, Except.error _ => Decidable.isFalse (by simp)
  | Except.error _, Except.ok _ => Decidable.isFalse (by simp)

/-- Round-half-to-even on the rationals, the semantics of builtin
`round` in Python (ignoring binary floating point representation). -/
def rheQ (q : ℚ) : ℤ :=
  if Int.fract q = 1 / 2 then 2 * round (q / 2) else round q

/-- Round-half-to-even on the reals (for the real-valued health scores). -/
noncomputable def rheR (x : ℝ) : ℤ :=
  if Int.fract x = 1 / 2 then 2 * round (x / 2) else round x

/-- Python `round(x, 2)`, as used by `Series.round(2)` on amounts. -/
def round2 (q : ℚ) : ℚ := ((rheQ (q * 100) : ℚ)) / 100

/-- Python `round(x, 1)` applied to a real value, returning the rounded
rational. -/
noncomputable def pyRound1 (x : ℝ) : ℚ := ((rheR (x * 10) : ℚ)) / 10

/-- Python `int(x)`: truncation toward zero. -/
def truncQ (q : ℚ) : ℤ := if 0 ≤ q then ⌊q⌋ else -⌊-q⌋

/-- Fixed-point rendering of a rational with `d` decimal places:
the semantics of a Python `:.df` format specifier. -/
def fmtFixed (d : ℕ) (q : ℚ) : String :=
  let s : ℤ := rheQ (q * ((10 : ℚ) ^ d))
  let m : ℕ := s.natAbs
  let core : String :=
    if d = 0 then Nat.repr m
    else
      let fs := Nat.repr (m % 10 ^ d)
      Nat.repr (m / 10 ^ d) ++ "." ++ String.mk (List.replicate (d - fs.length) '0') ++ fs
  if s < 0 then "-" ++ core else core

/-- Arithmetic mean of a list of rationals (0 on the empty list, all
call sites guard emptiness as the source does). -/
def mean (l : List ℚ) : ℚ := l.sum / (l.length : ℚ)

/-- Sample variance with ddof = 1, the pandas/numpy `std` convention;
call sites guard lists of length < 2 as the source does. -/
def sampleVar (l : List ℚ) : ℚ :=
  ((l.map fun x => (x - mean l) * (x - mean l)).sum) / ((l.length : ℚ) - 1)

/-- The 95th percentile with linear interpolation: the semantics of
`Series.quantile(0.95)` in pandas. -/
def quantile95 (l : List ℚ) : ℚ :=
  let s := List.insertionSort (fun a b : ℚ => a ≤ b) l
  let pos : ℚ := 95 / 100 * ((s.length : ℚ) - 1)
  let i : ℕ := (⌊pos⌋).toNat
  let lo := s.getD i 0
  let hi := s.getD (i + 1) lo
  lo + (pos - (⌊pos⌋ : ℚ)) * (hi - lo)

/-- Calendar date (UTC), the day-granular model of the normalized
`pd.Timestamp`. -/
structure Date where
  year : ℤ
  month : ℤ
  day : ℤ
deriving DecidableEq, Repr

/-- Cumulative days before the given month in a non-leap year. -/
def monthOffset (m : ℤ) : ℤ :=
  if m = 1 then 0 else if m = 2 then 31 else if m = 3 then 59
  else if m = 4 then 90 else if m = 5 then 120 else if m = 6 then 151
  else if m = 7 then 181 else if m = 8 then 212 else if m = 9 then 243
  else if m = 10 then 273 else if m = 11 then 304 else 334

/-- Proleptic Gregorian leap-year test. -/
def isLeap (y : ℤ) : Bool := y % 4 = 0 && (y % 100 != 0 || y % 400 = 0)

/-- Rata-die style day number of a date (day differences are exact). -/
def dateToDays (d : Date) : ℤ :=
  365 * (d.year - 1) + (d.year - 1) / 4 - (d.year - 1) / 100 + (d.year - 1) / 400
    + monthOffset d.month + (if isLeap d.year && d.month > 2 then 1 else 0) + d.day

/-- Key used for calendar-month bucketing (`dt.to_period('M')`). -/
def monthKeyOf (d : Date) : ℤ := 12 * d.year + d.month

/-- Left-pad a decimal rendering with zeros. -/
def padNum (width : ℕ) (n : ℕ) : String :=
  let s := Nat.repr n
  String.mk (List.replicate (width - s.length) '0') ++ s

/-- ISO rendering `YYYY-MM-DD` of a date, the semantics of Python
`str(date)`. -/
def dateToString (d : Date) : String :=
  padNum 4 d.year.natAbs ++ "-" ++ padNum 2 d.month.natAbs ++ "-" ++ padNum 2 d.day.natAbs

/-- Decimal digit value of a character, if it is a digit. -/
def digitVal (c : Char) : Option ℕ :=
  if c.isDigit then some (c.toNat - 48) else none

/-- Parse a list of decimal digit characters into a natural number. -/
def digitsToNat : List Char → Option ℕ
  | [] => none
  | cs => cs.foldl (fun acc c => match acc, digitVal c with
      | some n, some v => some (10 * n + v)
      | _, _ => none) (some 0)

/-- Model of `pd.to_datetime` on the ISO `YYYY-MM-DD` strings of the
input schema: anything else fails to parse. -/
def parseDate (s : String) : Option Date :=
  match s.data with
  | [y1, y2, y3, y4, h1, m1, m2, h2, d1, d2] =>
    if h1 = '-' && h2 = '-' then
      match digitsToNat [y1, y2, y3, y4], digitsToNat [m1, m2], digitsToNat [d1, d2] with
      | some y, some m, some d =>
        if 1 ≤ m && m ≤ 12 && 1 ≤ d && d ≤ 31 then some ⟨y, m, d⟩ else none
      | _, _, _ => none
    else none
  | _ => none

/-- Split a character list at the decimal-point character. -/
def splitAtDot : List Char → List Char × Option (List Char)
  | [] => ([], none)
  | c :: cs =>
    if c = '.' then ([], some cs)
    else
      let r := splitAtDot cs
      (c :: r.1, r.2)

/-- Model of `pd.to_numeric` on decimal amount strings: an optional
sign, an integer part and an optional fractional part. -/
def parseAmount (s : String) : Option ℚ :=
  let core : List Char → Option ℚ := fun cs =>
    match splitAtDot cs with
    | (ip, none) => (digitsToNat ip).map (fun n => (n : ℚ))
    | (ip, some fp) =>
      match digitsToNat ip, digitsToNat fp with
      | some n, some f => some ((n : ℚ) + (f : ℚ) / ((10 : ℚ) ^ fp.length))
      | _, _ => none
  match s.data with
  | '-' :: rest => (core rest).map Neg.neg
  | cs => core cs

/-- Raw input record, the JSON transaction object of the input schema. -/
structure RawTransaction where
  date : String
  amount : String
  category : String
  merchant : String
deriving DecidableEq, Repr

/-- Normalized transaction row of the cleaned DataFrame. -/
structure Transaction where
  date : Date
  amount : ℚ
  category : String
  merchant : String
deriving DecidableEq, Repr

/-- Epoch-day number of a transaction timestamp. -/
def Transaction.days (t : Transaction) : ℤ := dateToDays t.date

/-- Month bucket of a transaction. -/
def Transaction.monthKey (t : Transaction) : ℤ := monthKeyOf t.date

/-- Parse the `date` column; the first unparseable entry fails the
whole conversion as `pd.to_datetime` does. -/
def parseDates : List RawTransaction → Except String (List Date)
  | [] => Except.ok []
  | t :: ts =>
    match parseDate t.date with
    | none => Except.error ("Unknown datetime string format: " ++ t.date)
    | some d =>
      match parseDates ts with
      | Except.error e => Except.error e
      | Except.ok ds => Except.ok (d :: ds)

/-- Parse the `amount` column; the first unparseable entry fails the
whole conversion as `pd.to_numeric` does. -/
def parseAmounts : List RawTransaction → Except String (List ℚ)
  | [] => Except.ok []
  | t :: ts =>
    match parseAmount t.amount with
    | none => Except.error ("Unable to parse string: " ++ t.amount)
    | some q =>
      match parseAmounts ts with
      | Except.error e => Except.error e
      | Except.ok qs => Except.ok (q :: qs)

/-- The transaction normalizer: build the DataFrame, convert the date
column, then the amount column (lines 36-44 of the source). -/
def normalize (tx : List RawTransaction) : Except String (List Transaction) :=
  match parseDates tx with
  | Except.error e => Except.error e
  | Except.ok ds =>
    match parseAmounts tx with
    | Except.error e => Except.error e
    | Except.ok qs =>
      Except.ok ((tx.zip (ds.zip qs)).map fun p =>
        { date := p.2.1, amount := p.2.2, category := p.1.category, merchant := p.1.merchant })

/-- Generated insight record. The open `metadata` mapping of the source
dictionaries is omitted: it is analyzer-specific scratch data and not
part of any verified property. -/
structure Insight where
  id : String
  type : String
  title : String
  description : String
  impact : String
  confidence : ℚ
  category : String
  actionable : Bool
  priority : ℤ
deriving DecidableEq, Repr

/-- The five reported health-score components (Python `round`ed). -/
structure HealthComponents where
  spendingControl : ℤ
  savingsRate : ℤ
  budgetAdherence : ℤ
  financialStability : ℤ
  cashFlowHealth : ℤ
deriving DecidableEq, Repr

/-- Composite health score. -/
structure HealthScore where
  overall : ℚ
  components : HealthComponents
  recommendations : List String
deriving DecidableEq, Repr

/-- Final report dictionary. `success` and `error` are optional because
the demo-report dictionary carries neither key. -/
structure Report where
  insights : List Insight
  healthScore : HealthScore
  success : Option Bool
  error : Option String
deriving DecidableEq, Repr

/-- One recurring-charge candidate returned by `find_recurring_charges`. -/
structure RecurringCharge where
  merchant : String
  amount : ℚ
  frequency : ℕ
  avg_interval_days : ℚ
deriving DecidableEq, Repr

/-- Boolean lexicographic strict order on character lists (Unicode code
points), the Python string order used by pandas group sorting. -/
def charListLt : List Char → List Char → Bool
  | [], [] => false
  | [], _ :: _ => true
  | _ :: _, [] => false
  | a :: as, b :: bs =>
    if a.toNat < b.toNat then true
    else if b.toNat < a.toNat then false
    else charListLt as bs

/-- Strict string order on the underlying character data. -/
def strLt (s t : String) : Bool := charListLt s.data t.data

/-- Non-strict string order. -/
def strLe (s t : String) : Bool := strLt s t || s == t

/-- Sorted deduplicated keys of a grouping, the ascending group-key
order produced by pandas `groupby(sort=True)`. -/
def sortedKeys {κ : Type} [DecidableEq κ] (le : κ → κ → Bool) (ks : List κ) : List κ :=
  List.insertionSort (fun a b => le a b = true) ks.dedup

/-- Group a list of rows by a key and total a rational projection over
each group, in ascending key order. -/
def groupSums {κ : Type} [DecidableEq κ] (le : κ → κ → Bool)
    (key : Transaction → κ) (val : Transaction → ℚ) (l : List Transaction) :
    List (κ × ℚ) :=
  (sortedKeys le (l.map key)).map fun k => (k, ((l.filter fun t => key t = k).map val).sum)

/-- Expense view: negative-amount rows with the sign flipped. -/
def expensesOf (df : List Transaction) : List Transaction :=
  (df.filter fun t => t.amount < 0).map fun t => { t with amount := -t.amount }

/-- Expense view that keeps the original DataFrame row labels
(`df[df['amount'] < 0]` preserves the original `RangeIndex`). -/
def expensesWithLabels (df : List Transaction) : List (ℕ × Transaction) :=
  (df.enum.filter fun p => p.2.amount < 0).map fun p =>
    (p.1, { p.2 with amount := -p.2.amount })

/-- Day totals of the expense view in ascending date order
(`expenses.groupby(expenses['date'].dt.date)['amount'].sum()`). -/
def dailyTotals (exps : List Transaction) : List (Date × ℚ) :=
  groupSums (fun a b => dateToDays a ≤ dateToDays b) Transaction.date Transaction.amount exps

/-- Month totals of the expense view in ascending month order
(`groupby(date.dt.to_period('M'))['amount'].sum()`). -/
def monthlyTotals (exps : List Transaction) : List (ℤ × ℚ) :=
  groupSums (fun a b => a ≤ b) Transaction.monthKey Transaction.amount exps

/-- ASCII lowercase of a string (`str.lower()` on the label strings). -/
def lowerStr (s : String) : String := String.mk (s.data.map Char.toLower)

/-- Slug transformation `category.lower().replace(" ", "-")`. -/
def slug (s : String) : String :=
  String.mk (s.data.map fun c => if c.toLower = ' ' then '-' else c.toLower)

/-- Total income: sum of the positive amounts. -/
def totalIncome (df : List Transaction) : ℚ :=
  ((df.filter fun t => 0 < t.amount).map Transaction.amount).sum

/-- Total expenses: sum of the magnitudes of the negative amounts. -/
def totalExpenses (df : List Transaction) : ℚ :=
  ((df.filter fun t => t.amount < 0).map fun t => |t.amount|).sum

/-- The pattern analyzer `analyze_spending_patterns` (lines 76-156). -/
def analyze_spending_patterns (df : List Transaction) (now : ℤ) : List Insight :=
  let exps := expensesOf df
  if exps = [] then []
  else
    let recent := exps.filter fun t => now - 30 ≤ t.days
    let previous := exps.filter fun t => now - 60 ≤ t.days ∧ t.days < now - 30
    let overall : List Insight :=
      if recent ≠ [] ∧ previous ≠ [] then
        let rt := (recent.map Transaction.amount).sum
        let pt := (previous.map Transaction.amount).sum
        if 0 < pt then
          let chg := (rt - pt) / pt * 100
          if 15 < |chg| then
            [{ id := "spending-trend"
               type := if 0 < chg then "alert" else "prediction"
               title := "Spending " ++ (if 0 < chg then "Increased" else "Decreased")
                 ++ " by " ++ fmtFixed 1 |chg| ++ "%"
               description := "Your total spending has "
                 ++ (if 0 < chg then "increased" else "decreased")
                 ++ " by $" ++ fmtFixed 2 |rt - pt| ++ " compared to last month."
               impact := if 30 < |chg| then "High" else "Medium"
               confidence := min 95 (70 + |chg|)
               category := "Spending Analysis"
               actionable := decide (0 < chg)
               priority := if 30 < |chg| then 9 else 7 }]
          else []
        else []
      else []
    let cats := sortedKeys strLe (exps.map Transaction.category)
    let catInsights := cats.filterMap fun c =>
      let cr := ((recent.filter fun t => t.category = c).map Transaction.amount).sum
      let cp := ((previous.filter fun t => t.category = c).map Transaction.amount).sum
      if 0 < cp ∧ 0 < cr then
        let chg := (cr - cp) / cp * 100
        if 25 < |chg| then
          some { id := "category-trend-" ++ slug c
                 type := if 0 < chg then "recommendation" else "opportunity"
                 title := c ++ " Spending Alert"
                 description := "Your " ++ lowerStr c ++ " spending has "
                   ++ (if 0 < chg then "increased" else "decreased")
                   ++ " by " ++ fmtFixed 1 |chg| ++ "% this month."
                 impact := "Medium"
                 confidence := 85
                 category := c
                 actionable := true
                 priority := 6 }
        else none
      else none
    overall ++ catInsights

/-- Label of the first row holding the maximal amount: the semantics of
`Series.idxmax()` on the `amount` column. -/
def idxmaxAmount (l : List (ℕ × Transaction)) : ℕ :=
  (l.foldl (fun acc p =>
    match acc with
    | none => some p
    | some q => if q.2.amount < p.2.amount then some p else some q) none).elim 0 Prod.fst

/-- The anomaly detector `detect_anomalies` (lines 158-227). The
outlier comparison `d > mean + 2*std` is embedded by its square-free
equivalent `d > mean and (d - mean)^2 > 4*var` (the sample standard
deviation is the square root of `sampleVar`). The final `.iloc` lookup
uses a row label as a position and can therefore raise, which the
`Except` models. -/
def detect_anomalies (df : List Transaction) (now : ℤ) : Except String (List Insight) :=
  let exps := expensesWithLabels df
  if exps.length < 5 then Except.ok []
  else
    let daily := dailyTotals (exps.map Prod.snd)
    let dailyIns : List Insight :=
      if 7 ≤ daily.length then
        let vals := daily.map Prod.snd
        let m := mean vals
        let v := sampleVar vals
        let outliers := daily.filter fun p => m < p.2 ∧ 4 * v < (p.2 - m) * (p.2 - m)
        match outliers.getLast? with
        | some (d, amt) =>
          [{ id := "anomaly-spending"
             type := "alert"
             title := "Unusual Spending Detected"
             description := "You spent $" ++ fmtFixed 2 amt ++ " on " ++ dateToString d
               ++ ", which is " ++ fmtFixed 0 ((amt / m - 1) * 100)
               ++ "% above your daily average."
             impact := "Medium"
             confidence := 90
             category := "Budget Control"
             actionable := true
             priority := 8 }]
        | none => []
      else []
    let q := quantile95 (exps.map fun p => p.2.amount)
    let large := exps.filter fun p => q < p.2.amount
    if large = [] then Except.ok dailyIns
    else
      let recentLarge := large.filter fun p => now - 7 ≤ p.2.days
      if recentLarge = [] then Except.ok dailyIns
      else
        let lbl := idxmaxAmount recentLarge
        if h : lbl < recentLarge.length then
          let largest := (recentLarge.get ⟨lbl, h⟩).2
          Except.ok (dailyIns ++
            [{ id := "large-transaction"
               type := "alert"
               title := "Large Transaction Alert"
               description := "Large expense of $" ++ fmtFixed 2 largest.amount
                 ++ " detected at " ++ largest.merchant ++ " in " ++ largest.category ++ "."
               impact := "Medium"
               confidence := 100
               category := "Transaction Monitoring"
               actionable := true
               priority := 7 }])
        else Except.error "single positional indexer is out-of-bounds"

/-- Ordinary least-squares slope of the values against the indices
0, 1, 2, ...: the degree-1 coefficient of `np.polyfit`. -/
def polyfitSlope (ys : List ℚ) : ℚ :=
  let n : ℚ := ys.length
  let xs : List ℚ := (List.range ys.length).map fun i => (i : ℚ)
  let sx := xs.sum
  let sy := ys.sum
  let sxx := (xs.map fun x => x * x).sum
  let sxy := ((xs.zip ys).map fun p => p.1 * p.2).sum
  (n * sxy - sx * sy) / (n * sxx - sx * sx)

/-- The forecaster `predict_future_spending` (lines 229-274). -/
def predict_future_spending (df : List Transaction) : List Insight :=
  let exps := expensesOf df
  if exps = [] then []
  else
    let monthly := monthlyTotals exps
    if 2 ≤ monthly.length then
      if 3 ≤ monthly.length then
        let ys := monthly.map Prod.snd
        let trend := polyfitSlope ys
        let lastMonth := ys.getLastD 0
        let predicted := lastMonth + trend
        if 100 < |trend| then
          [{ id := "spending-prediction"
             type := "prediction"
             title := "Monthly Spending Forecast"
             description := "Based on your recent patterns, you\x27re projected to spend $"
               ++ fmtFixed 0 predicted ++ " next month, a "
               ++ (if 0 < trend then "$" ++ Nat.repr (truncQ trend).natAbs ++ " increase"
                   else "$" ++ Nat.repr (truncQ trend).natAbs ++ " decrease") ++ "."
             impact := if 300 < |trend| then "High" else "Medium"
             confidence := 75
             category := "Budget Planning"
             actionable := decide (0 < trend)
             priority := if 0 < trend then 8 else 6 }]
        else []
      else []
    else []

/-- Non-strict order on (merchant, rounded amount) grouping keys. -/
def chargeKeyLe (a b : String × ℚ) : Bool :=
  strLt a.1 b.1 || (a.1 == b.1 && a.2 ≤ b.2)

/-- The rounded-amount grouping of one merchant/amount key. -/
def recurringGroup (exps : List Transaction) (m : String) (a : ℚ) : List Transaction :=
  exps.filter fun t => t.merchant = m ∧ round2 t.amount = a

/-- Average day-gap between the sorted occurrence dates of a group. -/
def avgGap (g : List Transaction) : ℚ :=
  let ds := List.insertionSort (fun a b : ℤ => a ≤ b) (g.map Transaction.days)
  let gaps := (ds.zip ds.tail).map fun p => ((p.2 - p.1 : ℤ) : ℚ)
  mean gaps

/-- The shared recurring-charge primitive `find_recurring_charges`
(lines 424-448): group expenses by (merchant, amount rounded to two
decimals); a group of at least two occurrences whose average day-gap
lies in [20, 40] is recurring. -/
def find_recurring_charges (exps : List Transaction) : List RecurringCharge :=
  (sortedKeys chargeKeyLe (exps.map fun t => (t.merchant, round2 t.amount))).filterMap
    fun k =>
      let g := recurringGroup exps k.1 k.2
      if 2 ≤ g.length then
        let avg := avgGap g
        if 20 ≤ avg ∧ avg ≤ 40 then
          some { merchant := k.1, amount := k.2, frequency := g.length, avg_interval_days := avg }
        else none
      else none

/-- The savings-opportunity finder `identify_savings_opportunities`
(lines 276-333). The top spending category of
`sort_values(ascending=False)` is taken as the first maximal-total
category in ascending category order. -/
def identify_savings_opportunities (df : List Transaction) : List Insight :=
  let exps := expensesOf df
  if exps = [] then []
  else
    let rc := find_recurring_charges exps
    let subIns : List Insight :=
      if rc ≠ [] then
        let total := (rc.map RecurringCharge.amount).sum
        [{ id := "subscription-optimization"
           type := "recommendation"
           title := "Optimize Subscriptions"
           description := "You have " ++ Nat.repr rc.length
             ++ " recurring subscriptions totaling $" ++ fmtFixed 2 total
             ++ "/month. Review and cancel unused ones."
           impact := if 100 < total then "High" else "Medium"
           confidence := 95
           category := "Cost Optimization"
           actionable := true
           priority := 9 }]
      else []
    let catTotals := groupSums strLe Transaction.category Transaction.amount exps
    let catIns : List Insight :=
      match catTotals.foldl (fun acc p =>
          match acc with
          | none => some p
          | some q => if q.2 < p.2 then some p else some q) none with
      | some (top, amt) =>
        if 500 < amt then
          [{ id := "optimize-" ++ slug top
             type := "opportunity"
             title := "Reduce " ++ top ++ " Spending"
             description := top ++ " is your highest spending category at $"
               ++ fmtFixed 2 amt ++ ". Consider ways to reduce this expense."
             impact := "Medium"
             confidence := 80
             category := top
             actionable := true
             priority := 6 }]
        else []
      | none => []
    subIns ++ catIns

/-- The cash-flow analyzer `analyze_cash_flow` (lines 335-380). -/
def analyze_cash_flow (df : List Transaction) : List Insight :=
  let income := totalIncome df
  let expenses := totalExpenses df
  if 0 < income then
    let rate := (income - expenses) / income * 100
    if rate < 10 then
      [{ id := "low-savings-rate"
         type := "goal"
         title := "Improve Savings Rate"
         description := "Your current savings rate is " ++ fmtFixed 1 rate
           ++ "%. Aim for at least 10-20% to build financial security."
         impact := "High"
         confidence := 100
         category := "Savings Goals"
         actionable := true
         priority := 9 }]
    else if 30 < rate then
      [{ id := "high-savings-rate"
         type := "opportunity"
         title := "Excellent Savings Rate"
         description := "Your savings rate of " ++ fmtFixed 1 rate
           ++ "% is excellent! Consider investing surplus funds for growth."
         impact := "Medium"
         confidence := 100
         category := "Investment Opportunity"
         actionable := true
         priority := 5 }]
    else []
  else []

/-- The recurring-charge change detector `detect_recurring_charges`
(lines 382-422). -/
def detect_recurring_charges (df : List Transaction) (now : ℤ) : List Insight :=
  let exps := expensesOf df
  let rc := find_recurring_charges exps
  rc.filterMap fun ch =>
    let matching := exps.filter fun t => t.merchant = ch.merchant ∧ |t.amount - ch.amount| < 1
    match (List.insertionSort (fun a b : ℤ => a ≤ b) (matching.map Transaction.days)).head? with
    | some firstOcc =>
      if now - 30 ≤ firstOcc then
        some { id := "new-recurring-" ++ slug ch.merchant
               type := "alert"
               title := "New Recurring Charge"
               description := "New recurring charge of $" ++ fmtFixed 2 ch.amount
                 ++ " from " ++ ch.merchant ++ " detected. Verify this is authorized."
               impact := "Medium"
               confidence := 85
               category := "Account Monitoring"
               actionable := true
               priority := 8 }
      else none
    | none => none

/-- Spending-control sub-score `_calculate_spending_control_score`
(lines 490-502): volatility of the expense magnitudes. -/
noncomputable def calculate_spending_control_score (df : List Transaction) : ℝ :=
  let mags := (expensesOf df).map Transaction.amount
  if mags.length < 3 then 75
  else
    let cv : ℝ := if 0 < mean mags then Real.sqrt (sampleVar mags) / (mean mags : ℝ) else 1
    min 100 (max 0 (100 - cv * 50))

/-- Savings-rate sub-score `_calculate_savings_rate_score`
(lines 504-513). -/
def calculate_savings_rate_score (income expenses : ℚ) : ℚ :=
  if income ≤ 0 then 0
  else min 100 (max 0 ((income - expenses) / income * 100 * 5))

/-- Budget-adherence sub-score `_calculate_budget_adherence_score`
(lines 515-528): volatility of the daily expense totals. With at least
7 expenses but a single expense day the pandas sample deviation is NaN
and the `max`/`min` clamps collapse the score to 0. -/
noncomputable def calculate_budget_adherence_score (df : List Transaction) : ℝ :=
  let exps := expensesOf df
  if exps.length < 7 then 70
  else
    let daily := (dailyTotals exps).map Prod.snd
    if daily.length < 2 ∧ 0 < mean daily then 0
    else
      let cv : ℝ := if 0 < mean daily then Real.sqrt (sampleVar daily) / (mean daily : ℝ) else 1
      min 100 (max 0 (100 - cv * 30))

/-- Financial-stability sub-score `_calculate_stability_score`
(lines 530-548): volatility of the monthly expense totals. -/
noncomputable def calculate_stability_score (df : List Transaction) : ℝ :=
  let monthly := (monthlyTotals (expensesOf df)).map Prod.snd
  if monthly.length < 2 then 70
  else
    let cv : ℝ := if 0 < mean monthly then Real.sqrt (sampleVar monthly) / (mean monthly : ℝ) else 1
    min 100 (max 0 (100 - cv * 40))

/-- Cash-flow sub-score `_calculate_cash_flow_score` (lines 550-566):
a piecewise function of the expenses/income quotient. -/
def calculate_cash_flow_score (income expenses : ℚ) : ℚ :=
  if income ≤ 0 then 0
  else
    let r := expenses / income
    if r ≤ 7 / 10 then 100
    else if r ≤ 8 / 10 then 85
    else if r ≤ 9 / 10 then 70
    else if r ≤ 1 then 50
    else max 0 (50 - (r - 1) * 100)

/-- Recommendation generator `_generate_health_recommendations`
(lines 568-590): six guards evaluated in order, first three hits kept. -/
noncomputable def generate_health_recommendations
    (overall : ℝ) (sc sr ba fs cf : ℝ) : List String :=
  ((if sr < 50 then ["Increase your savings rate to at least 10-15% of income"] else [])
    ++ (if sc < 70 then ["Work on reducing spending volatility by creating a budget"] else [])
    ++ (if ba < 70 then ["Improve budget adherence by tracking daily expenses"] else [])
    ++ (if fs < 70 then ["Focus on creating more consistent monthly spending patterns"] else [])
    ++ (if cf < 60 then ["Review and reduce monthly expenses to improve cash flow"] else [])
    ++ (if 80 < overall then ["Great job! Consider investing surplus funds for long-term growth"] else [])).take 3

/-- The health scorer `calculate_health_score` (lines 450-488). -/
noncomputable def calculate_health_score (df : List Transaction) : HealthScore :=
  let income := totalIncome df
  let expenses := totalExpenses df
  let sc : ℝ := calculate_spending_control_score df
  let sr : ℝ := (calculate_savings_rate_score income expenses : ℝ)
  let ba : ℝ := calculate_budget_adherence_score df
  let fs : ℝ := calculate_stability_score df
  let cf : ℝ := (calculate_cash_flow_score income expenses : ℝ)
  let overall : ℝ := sc * 0.25 + sr * 0.25 + ba * 0.2 + fs * 0.15 + cf * 0.15
  { overall := pyRound1 (overall / 10)
    components :=
      { spendingControl := rheR sc
        savingsRate := rheR sr
        budgetAdherence := rheR ba
        financialStability := rheR fs
        cashFlowHealth := rheR cf }
    recommendations := generate_health_recommendations overall sc sr ba fs cf }

/-- The fixed demo report `get_demo_insights` (lines 592-645). The
returned dictionary carries neither a `success` nor an `error` key. -/
def get_demo_insights : Report :=
  { insights :=
      [{ id := "demo-spending-trend"
         type := "prediction"
         title := "Monthly Spending Forecast"
         description := "Based on current patterns, you\x27re on track to spend $2,850 this month."
         impact := "Medium"
         confidence := 82
         category := "Budget Planning"
         actionable := true
         priority := 8 },
       { id := "demo-subscription"
         type := "recommendation"
         title := "Subscription Optimization"
         description := "You could save $47/month by reviewing and canceling unused subscriptions."
         impact := "High"
         confidence := 94
         category := "Cost Optimization"
         actionable := true
         priority := 9 },
       { id := "demo-savings"
         type := "goal"
         title := "Improve Savings Rate"
         description := "Increase monthly savings by $150 to reach the recommended 20% savings rate."
         impact := "High"
         confidence := 85
         category := "Savings Goals"
         actionable := true
         priority := 8 }]
    healthScore :=
      { overall := 78 / 10
        components :=
          { spendingControl := 82
            savingsRate := 75
            budgetAdherence := 79
            financialStability := 81
            cashFlowHealth := 77 }
        recommendations :=
          ["Increase your savings rate to at least 15% of income",
           "Consider investing surplus funds for long-term growth",
           "Review monthly subscriptions for optimization opportunities"] }
    success := none
    error := none }

/-- The fallback report built in the `except` branch (lines 68-74). -/
def fallbackReport (e : String) : Report :=
  { insights := get_demo_insights.insights
    healthScore := get_demo_insights.healthScore
    success := some false
    error := some e }

/-- Sort order of the final ranking: descending lexicographic on the
pair (priority, confidence). `insightLe a b` holds when `a` may be
placed before `b`. -/
def insightLe (a b : Insight) : Prop :=
  b.priority < a.priority ∨ (b.priority = a.priority ∧ b.confidence ≤ a.confidence)

instance : DecidableRel insightLe := fun a b => by unfold insightLe; infer_instance

instance : IsTotal Insight insightLe :=
  ⟨fun a b => by
    unfold insightLe
    rcases lt_trichotomy a.priority b.priority with h | h | h
    · exact Or.inr (Or.inl h)
    · rcases le_total b.confidence a.confidence with hc | hc
      · exact Or.inl (Or.inr ⟨h.symm, hc⟩)
      · exact Or.inr (Or.inr ⟨h, hc⟩)
    · exact Or.inl (Or.inl h)⟩

instance : IsTrans Insight insightLe :=
  ⟨fun a b c hab hbc => by
    unfold insightLe at *
    rcases hab with h1 | ⟨h1, h1c⟩ <;> rcases hbc with h2 | ⟨h2, h2c⟩
    · exact Or.inl (h2.trans h1)
    · exact Or.inl (h2 ▸ h1)
    · exact Or.inl (h1 ▸ h2)
    · exact Or.inr ⟨h2.trans h1, h2c.trans h1c⟩⟩

/-- Stable descending ranking of the insight list: the semantics of
`list.sort(key=lambda x: (x['priority'], x['confidence']), reverse=True)`,
which is stable for equal keys. -/
def rankInsights (l : List Insight) : List Insight := List.insertionSort insightLe l

/-- Concatenation of the six analyzer outputs in source order
(lines 49-54); the anomaly detector may raise. -/
def allInsights (df : List Transaction) (now : ℤ) : Except String (List Insight) :=
  match detect_anomalies df now with
  | Except.error e => Except.error e
  | Except.ok anomalies =>
    Except.ok (analyze_spending_patterns df now ++ anomalies
      ++ predict_future_spending df ++ identify_savings_opportunities df
      ++ analyze_cash_flow df ++ detect_recurring_charges df now)

/-- The body of the `try` block for non-empty input: normalize, run all
analyzers, score, rank and truncate (lines 35-66). -/
noncomputable def pipeline (tx : List RawTransaction) (now : ℤ) : Except String Report :=
  match normalize tx with
  | Except.error e => Except.error e
  | Except.ok df =>
    match allInsights df now with
    | Except.error e => Except.error e
    | Except.ok ins =>
      Except.ok
        { insights := (rankInsights ins).take 8
          healthScore := calculate_health_score df
          success := some true
          error := none }

/-- The orchestrator `analyze_transactions` (lines 21-74): empty input
returns the demo report; any failure inside the `try` block is caught
and converted into the fallback report. The JSON-string input branch is
not modelled (it decodes to the same record list). -/
noncomputable def analyze_transactions (tx : List RawTransaction) (now : ℤ) : Report :=
  if tx = [] then get_demo_insights
  else
    match pipeline tx now with
    | Except.ok r => r
    | Except.error e => fallbackReport e

/-- Analysis timestamp used by the concrete scenarios: 2024-06-30. -/
def nowJun30 : ℤ := dateToDays ⟨2024, 6, 30⟩

/-- Concrete raw input: one income row followed by five expenses, the
largest of which is recent and far above the 95th percentile. -/
def sixRecords : List RawTransaction :=
  [{ date := "2024-03-01", amount := "100.00", category := "Salary", merchant := "Employer" },
   { date := "2023-11-01", amount := "-10.00", category := "Food", merchant := "GrocerA" },
   { date := "2023-11-02", amount := "-10.00", category := "Food", merchant := "GrocerB" },
   { date := "2023-11-03", amount := "-10.00", category := "Food", merchant := "GrocerC" },
   { date := "2023-11-04", amount := "-10.00", category := "Food", merchant := "GrocerD" },
   { date := "2024-06-30", amount := "-500.00", category := "Electronics", merchant := "MegaStore" }]

/-- The normalized table of `sixRecords`. -/
def sixRecordsDf : List Transaction :=
  [{ date := ⟨2024, 3, 1⟩, amount := 100, category := "Salary", merchant := "Employer" },
   { date := ⟨2023, 11, 1⟩, amount := -10, category := "Food", merchant := "GrocerA" },
   { date := ⟨2023, 11, 2⟩, amount := -10, category := "Food", merchant := "GrocerB" },
   { date := ⟨2023, 11, 3⟩, amount := -10, category := "Food", merchant := "GrocerC" },
   { date := ⟨2023, 11, 4⟩, amount := -10, category := "Food", merchant := "GrocerD" },
   { date := ⟨2024, 6, 30⟩, amount := -500, category := "Electronics", merchant := "MegaStore" }]

/-- Concrete well-formed single-transaction input. -/
def oneRecord : List RawTransaction :=
  [{ date := "2024-06-15", amount := "-50.00", category := "Food", merchant := "Cafe" }]

/-- The normalized table of `oneRecord`. -/
def oneRecordDf : List Transaction :=
  [{ date := ⟨2024, 6, 15⟩, amount := -50, category := "Food", merchant := "Cafe" }]

/-- Concrete malformed single-record input of the specification. -/
def badRecord : List RawTransaction :=
  [{ date := "not-a-date", amount := "x", category := "c", merchant := "m" }]

/-- Three monthly Netflix charges of $15.00, dated 32 days apart. -/
def netflixDf : List Transaction :=
  [{ date := ⟨2024, 1, 5⟩, amount := -15, category := "Entertainment", merchant := "Netflix" },
   { date := ⟨2024, 2, 6⟩, amount := -15, category := "Entertainment", merchant := "Netflix" },
   { date := ⟨2024, 3, 9⟩, amount := -15, category := "Entertainment", merchant := "Netflix" }]

/-! ## Helper lemmas -/

theorem string_append_ne_empty (a b : String) (h : a.length ≠ 0) : a ++ b ≠ "" := by
  intro hc
  have hlen := congrArg String.length hc
  rw [String.length_append] at hlen
  have : ("" : String).length = 0 := rfl
  omega

theorem parseDates_error_ne_empty :
    ∀ (tx : List RawTransaction) (e : String), parseDates tx = Except.error e → e ≠ "" := by
  intro tx
  induction tx with
  | nil => intro e h; simp [parseDates] at h
  | cons t ts ih =>
    intro e h
    simp only [parseDates] at h
    cases hd : parseDate t.date with
    | none =>
      rw [hd] at h
      simp only [Except.error.injEq] at h
      subst h
      exact string_append_ne_empty _ _ (by decide)
    | some d =>
      rw [hd] at h
      cases hts : parseDates ts with
      | error e2 => rw [hts] at h; simp only [Except.error.injEq] at h; subst h; exact ih _ hts
      | ok ds => rw [hts] at h; simp at h

theorem parseAmounts_error_ne_empty :
    ∀ (tx : List RawTransaction) (e : String), parseAmounts tx = Except.error e → e ≠ "" := by
  intro tx
  induction tx with
  | nil => intro e h; simp [parseAmounts] at h
  | cons t ts ih =>
    intro e h
    simp only [parseAmounts] at h
    cases hd : parseAmount t.amount with
    | none =>
      rw [hd] at h
      simp only [Except.error.injEq] at h
      subst h
      exact string_append_ne_empty _ _ (by decide)
    | some q =>
      rw [hd] at h
      cases hts : parseAmounts ts with
      | error e2 => rw [hts] at h; simp only [Except.error.injEq] at h; subst h; exact ih _ hts
      | ok qs => rw [hts] at h; simp at h

theorem parseDates_ok_no_bad :
    ∀ (tx : List RawTransaction) (ds : List Date), parseDates tx = Except.ok ds →
      ∀ t ∈ tx, parseDate t.date ≠ none := by
  intro tx
  induction tx with
  | nil => intro ds _ t ht; simp at ht
  | cons u ts ih =>
    intro ds h t ht
    simp only [parseDates] at h
    cases hd : parseDate u.date with
    | none => rw [hd] at h; simp at h
    | some d =>
      rw [hd] at h
      cases hts : parseDates ts with
      | error e2 => rw [hts] at h; simp at h
      | ok ds2 =>
        rcases List.mem_cons.mp ht with rfl | hmem
        · rw [hd]; simp
        · exact ih ds2 hts t hmem

theorem parseAmounts_ok_no_bad :
    ∀ (tx : List RawTransaction) (qs : List ℚ), parseAmounts tx = Except.ok qs →
      ∀ t ∈ tx, parseAmount t.amount ≠ none := by
  intro tx
  induction tx with
  | nil => intro qs _ t ht; simp at ht
  | cons u ts ih =>
    intro qs h t ht
    simp only [parseAmounts] at h
    cases hd : parseAmount u.amount with
    | none => rw [hd] at h; simp at h
    | some q =>
      rw [hd] at h
      cases hts : parseAmounts ts with
      | error e2 => rw [hts] at h; simp at h
      | ok qs2 =>
        rcases List.mem_cons.mp ht with rfl | hmem
        · rw [hd]; simp
        · exact ih qs2 hts t hmem

theorem normalize_error_of_bad (tx : List RawTransaction)
    (h : ∃ t ∈ tx, parseDate t.date = none ∨ parseAmount t.amount = none) :
    ∃ e, normalize tx = Except.error e ∧ e ≠ "" := by
  obtain ⟨t, ht, hbad⟩ := h
  unfold normalize
  cases hd : parseDates tx with
  | error e => exact ⟨e, rfl, parseDates_error_ne_empty tx e hd⟩
  | ok ds =>
    cases ha : parseAmounts tx with
    | error e => exact ⟨e, rfl, parseAmounts_error_ne_empty tx e ha⟩
    | ok qs =>
      exfalso
      rcases hbad with hb | hb
      · exact parseDates_ok_no_bad tx ds hd t ht hb
      · exact parseAmounts_ok_no_bad tx qs ha t ht hb

theorem filter_orderedInsert_pos {α : Type} (r : α → α → Prop) [DecidableRel r] (p : α → Bool)
    (hp : ∀ a b, p a = true → p b = true → r a b) (x : α) (hx : p x = true) :
    ∀ s : List α, (List.orderedInsert r x s).filter p = x :: s.filter p := by
  intro s
  induction s with
  | nil => simp [List.orderedInsert, hx]
  | cons y s ih =>
    rw [List.orderedInsert]
    by_cases hr : r x y
    · rw [if_pos hr, List.filter_cons, List.filter_cons, hx]
      simp
    · rw [if_neg hr, List.filter_cons]
      cases hy : p y with
      | false => simpa [hy] using ih
      | true => exact absurd (hp x y hx hy) hr

theorem filter_orderedInsert_neg {α : Type} (r : α → α → Prop) [DecidableRel r] (p : α → Bool)
    (x : α) (hx : p x = false) :
    ∀ s : List α, (List.orderedInsert r x s).filter p = s.filter p := by
  intro s
  induction s with
  | nil => simp [List.orderedInsert, hx]
  | cons y s ih =>
    rw [List.orderedInsert]
    by_cases hr : r x y
    · rw [if_pos hr, List.filter_cons, hx, List.filter_cons]
      simp
    · rw [if_neg hr, List.filter_cons, List.filter_cons, ih]

theorem filter_insertionSort {α : Type} (r : α → α → Prop) [DecidableRel r] (p : α → Bool)
    (hp : ∀ a b, p a = true → p b = true → r a b) :
    ∀ l : List α, (List.insertionSort r l).filter p = l.filter p := by
  intro l
  induction l with
  | nil => rfl
  | cons x l ih =>
    rw [List.insertionSort, List.filter_cons]
    cases hx : p x with
    | true => rw [filter_orderedInsert_pos r p hp x hx, ih]; simp
    | false => rw [filter_orderedInsert_neg r p x hx, ih]; simp

theorem rheR_sub_le (x : ℝ) : |(rheR x : ℝ) - x| ≤ 1 / 2 := by
  unfold rheR
  split_ifs with h
  · have hfr : x - (⌊x⌋ : ℝ) = 1 / 2 := by
      have : Int.fract x = x - (⌊x⌋ : ℝ) := rfl
      rw [this] at h
      exact h
    set j := round (x / 2) with hj
    have hj2 : j = ⌊x / 2 + 1 / 2⌋ := round_eq _
    have hjl : (j : ℝ) ≤ x / 2 + 1 / 2 := by rw [hj2]; exact Int.floor_le _
    have hju : x / 2 + 1 / 2 < (j : ℝ) + 1 := by rw [hj2]; exact Int.lt_floor_add_one _
    set m : ℤ := 2 * j - ⌊x⌋ with hm
    have hmr : (2 : ℝ) * (j : ℝ) - x = (m : ℝ) - 1 / 2 := by
      rw [hm]
      push_cast
      linarith
    have hm0 : (0 : ℤ) ≤ m := by
      have h1 : (-1 : ℝ) < (m : ℝ) := by linarith
      have h2 : (-1 : ℤ) < m := by exact_mod_cast h1
      omega
    have hm1 : m ≤ 1 := by
      have h1 : (m : ℝ) < 2 := by linarith
      have h2 : m < (2 : ℤ) := by exact_mod_cast h1
      omega
    have hgoal : ((2 * j : ℤ) : ℝ) - x = (m : ℝ) - 1 / 2 := by push_cast; linarith
    rw [hgoal]
    have hcase : m = 0 ∨ m = 1 := by omega
    rcases hcase with h0 | h0 <;> rw [h0] <;> rw [abs_le] <;> constructor <;> norm_num
  · rw [abs_sub_comm]
    exact abs_sub_round x

theorem rheR_bounds {x : ℝ} {lo hi : ℤ} (h0 : (lo : ℝ) ≤ x) (h1 : x ≤ (hi : ℝ)) :
    lo ≤ rheR x ∧ rheR x ≤ hi := by
  have h := abs_le.mp (rheR_sub_le x)
  constructor
  · have hl : (lo : ℝ) - 1 < (rheR x : ℝ) := by linarith
    have : lo - 1 < rheR x := by exact_mod_cast hl
    omega
  · have hu : (rheR x : ℝ) < (hi : ℝ) + 1 := by linarith
    have : rheR x < hi + 1 := by exact_mod_cast hu
    omega

theorem clamp_bounds (x : ℝ) : (0 : ℝ) ≤ min 100 (max 0 x) ∧ min 100 (max 0 x) ≤ 100 :=
  ⟨le_min (by norm_num) (le_max_left 0 x), min_le_left _ _⟩

theorem clampQ_bounds (x : ℚ) : (0 : ℚ) ≤ min 100 (max 0 x) ∧ min 100 (max 0 x) ≤ 100 :=
  ⟨le_min (by norm_num) (le_max_left 0 x), min_le_left _ _⟩

theorem spending_control_score_bounds (df : List Transaction) :
    0 ≤ calculate_spending_control_score df ∧ calculate_spending_control_score df ≤ 100 := by
  simp only [calculate_spending_control_score]
  split_ifs
  all_goals first | exact clamp_bounds _ | norm_num [min_def, max_def]

theorem savings_rate_score_bounds (i e : ℚ) :
    0 ≤ calculate_savings_rate_score i e ∧ calculate_savings_rate_score i e ≤ 100 := by
  simp only [calculate_savings_rate_score]
  split_ifs
  all_goals first | exact clampQ_bounds _ | norm_num [min_def, max_def]

theorem budget_adherence_score_bounds (df : List Transaction) :
    0 ≤ calculate_budget_adherence_score df ∧ calculate_budget_adherence_score df ≤ 100 := by
  simp only [calculate_budget_adherence_score]
  split_ifs
  all_goals first | exact clamp_bounds _ | norm_num [min_def, max_def]

theorem stability_score_bounds (df : List Transaction) :
    0 ≤ calculate_stability_score df ∧ calculate_stability_score df ≤ 100 := by
  simp only [calculate_stability_score]
  split_ifs
  all_goals first | exact clamp_bounds _ | norm_num [min_def, max_def]

theorem cash_flow_score_bounds (i e : ℚ) :
    0 ≤ calculate_cash_flow_score i e ∧ calculate_cash_flow_score i e ≤ 100 := by
  simp only [calculate_cash_flow_score]
  split_ifs with h1 h2 h3 h4 h5
  · norm_num
  · norm_num
  · norm_num
  · norm_num
  · norm_num
  · constructor
    · exact le_max_left 0 _
    · have hle : 50 - (e / i - 1) * 100 ≤ (100 : ℚ) := by
        push_neg at h5
        nlinarith
      exact max_le (by norm_num) hle

theorem pipeline_ok_shape (tx : List RawTransaction) (now : ℤ) (r : Report)
    (hp : pipeline tx now = Except.ok r) :
    ∃ df ins, normalize tx = Except.ok df ∧ allInsights df now = Except.ok ins ∧
      r = { insights := (rankInsights ins).take 8
            healthScore := calculate_health_score df
            success := some true
            error := none } := by
  unfold pipeline at hp
  split at hp
  next e heq => simp at hp
  next df heq =>
    split at hp
    next e heq2 => simp at hp
    next ins heq2 =>
      simp only [Except.ok.injEq] at hp
      exact ⟨df, ins, heq, heq2, hp.symm⟩

theorem pipeline_error_analyze (tx : List RawTransaction) (now : ℤ) (e : String)
    (htx : tx ≠ []) (hp : pipeline tx now = Except.error e) :
    analyze_transactions tx now = fallbackReport e := by
  unfold analyze_transactions
  rw [if_neg htx, hp]

theorem pipeline_ok_analyze (tx : List RawTransaction) (now : ℤ) (r : Report)
    (htx : tx ≠ []) (hp : pipeline tx now = Except.ok r) :
    analyze_transactions tx now = r := by
  unfold analyze_transactions
  rw [if_neg htx, hp]

/-! ## Claim theorems -/

/-- C1: for the empty input collection `analyze_transactions` returns
the fixed demo report, a constant independent of the analysis clock,
whose insights and health score are the fixed demo literals. -/
theorem analyze_transactions_empty_eq_demo :
    ∀ now : ℤ, analyze_transactions [] now = get_demo_insights := by
  intro now
  rfl

/-- C2: any input containing a record with an unparseable date or
amount yields the fallback report: `success = false`, a non-empty error
string, and the demo insights and demo health score. -/
theorem analyze_transactions_malformed_fallback :
    ∀ (tx : List RawTransaction) (now : ℤ),
      (∃ t ∈ tx, parseDate t.date = none ∨ parseAmount t.amount = none) →
      (analyze_transactions tx now).success = some false ∧
      (∃ e, (analyze_transactions tx now).error = some e ∧ e ≠ "") ∧
      (analyze_transactions tx now).insights = get_demo_insights.insights ∧
      (analyze_transactions tx now).healthScore = get_demo_insights.healthScore := by
  intro tx now h
  obtain ⟨e, hne, hnz⟩ := normalize_error_of_bad tx h
  have htx : tx ≠ [] := by
    obtain ⟨t, ht, _⟩ := h
    intro hc
    subst hc
    simp at ht
  have hpipe : pipeline tx now = Except.error e := by
    unfold pipeline
    rw [hne]
  have hA := pipeline_error_analyze tx now e htx hpipe
  rw [hA]
  exact ⟨rfl, ⟨e, rfl, hnz⟩, rfl, rfl⟩

theorem analyze_transactions_malformed_fallback_witness :
    (∃ t ∈ badRecord, parseDate t.date = none ∨ parseAmount t.amount = none) ∧
    ((analyze_transactions badRecord 0).success = some false ∧
     (∃ e, (analyze_transactions badRecord 0).error = some e ∧ e ≠ "") ∧
     (analyze_transactions badRecord 0).insights = get_demo_insights.insights ∧
     (analyze_transactions badRecord 0).healthScore = get_demo_insights.healthScore) :=
  ⟨by decide, analyze_transactions_malformed_fallback badRecord 0 (by decide)⟩

/-- C5: concrete run showing the claimed large-transaction insight is
not produced. On `sixRecordsDf` at `nowJun30` some expense magnitudes
exceed the 95th percentile and one of them is within the last 7 days,
yet `detect_anomalies` raises (the `.iloc[idxmax]` positional/label
confusion) instead of emitting the insight for the largest recent
transaction. -/
theorem detect_anomalies_iloc_failure :
    (∃ p ∈ expensesWithLabels sixRecordsDf,
        quantile95 ((expensesWithLabels sixRecordsDf).map fun q => q.2.amount) < p.2.amount ∧
        nowJun30 - 7 ≤ p.2.days) ∧
    detect_anomalies sixRecordsDf nowJun30 =
      Except.error "single positional indexer is out-of-bounds" := by
  constructor
  · decide
  · decide

/-- C7: the cash-flow analyzer emits exactly the low-savings-rate goal
insight when income is positive and the savings rate is below 10,
exactly the high-savings-rate opportunity insight when income is
positive and the savings rate exceeds 30, and nothing otherwise; in
particular at most one of the two fires. -/
theorem analyze_cash_flow_cases :
    ∀ df : List Transaction,
      (analyze_cash_flow df).length ≤ 1 ∧
      analyze_cash_flow df =
        (if 0 < totalIncome df ∧
            (totalIncome df - totalExpenses df) / totalIncome df * 100 < 10 then
          [{ id := "low-savings-rate"
             type := "goal"
             title := "Improve Savings Rate"
             description := "Your current savings rate is "
               ++ fmtFixed 1 ((totalIncome df - totalExpenses df) / totalIncome df * 100)
               ++ "%. Aim for at least 10-20% to build financial security."
             impact := "High"
             confidence := 100
             category := "Savings Goals"
             actionable := true
             priority := 9 }]
        else if 0 < totalIncome df ∧
            30 < (totalIncome df - totalExpenses df) / totalIncome df * 100 then
          [{ id := "high-savings-rate"
             type := "opportunity"
             title := "Excellent Savings Rate"
             description := "Your savings rate of "
               ++ fmtFixed 1 ((totalIncome df - totalExpenses df) / totalIncome df * 100)
               ++ "% is excellent! Consider investing surplus funds for growth."
             impact := "Medium"
             confidence := 100
             category := "Investment Opportunity"
             actionable := true
             priority := 5 }]
        else []) := by
  intro df
  constructor
  · simp only [analyze_cash_flow]
    split_ifs <;> simp
  · simp only [analyze_cash_flow]
    by_cases hI : 0 < totalIncome df
    · by_cases hL : (totalIncome df - totalExpenses df) / totalIncome df * 100 < 10
      · rw [if_pos hI, if_pos hL, if_pos ⟨hI, hL⟩]
      · by_cases hH : 30 < (totalIncome df - totalExpenses df) / totalIncome df * 100
        · rw [if_pos hI, if_neg hL, if_pos hH, if_neg (fun hc => hL hc.2), if_pos ⟨hI, hH⟩]
        · rw [if_pos hI, if_neg hL, if_neg hH, if_neg (fun hc => hL hc.2),
            if_neg (fun hc => hH hc.2)]
    · rw [if_neg hI, if_neg (fun hc => hI hc.1), if_neg (fun hc => hI hc.1)]

/-- C8 counterexample: the report returned for the empty input carries
no `success` field at all, refuting the claim that every returned
report contains a boolean `success` field. -/
theorem empty_input_report_has_no_success_field :
    (analyze_transactions [] 0).success = none := by
  rfl

/-- C8 amended: every report returned on a NON-EMPTY input contains a
boolean `success` field and contains an `error` field exactly when
`success` is false; the empty-input demo report contains neither field. -/
theorem analyze_transactions_success_error_fields :
    ∀ (tx : List RawTransaction) (now : ℤ), tx ≠ [] →
      (∃ b, (analyze_transactions tx now).success = some b) ∧
      ((analyze_transactions tx now).error ≠ none ↔
        (analyze_transactions tx now).success = some false) := by
  intro tx now htx
  cases hp : pipeline tx now with
  | ok r =>
    obtain ⟨df, ins, _, _, hr⟩ := pipeline_ok_shape tx now r hp
    rw [pipeline_ok_analyze tx now r htx hp, hr]
    exact ⟨⟨true, rfl⟩, by simp⟩
  | error e =>
    rw [pipeline_error_analyze tx now e htx hp]
    exact ⟨⟨false, rfl⟩, by simp [fallbackReport]⟩

theorem analyze_transactions_success_error_fields_witness :
    oneRecord ≠ [] ∧
    ((∃ b, (analyze_transactions oneRecord 0).success = some b) ∧
     ((analyze_transactions oneRecord 0).error ≠ none ↔
       (analyze_transactions oneRecord 0).success = some false)) :=
  ⟨by decide, analyze_transactions_success_error_fields oneRecord 0 (by decide)⟩

/-- C9: `analyze_transactions` is total by construction and every run
falls into exactly one of three shapes: the empty-input demo report,
the successful pipeline report, or the caught-failure fallback carrying
the demo insights and demo health score with `success = false`. -/
theorem analyze_transactions_catch_all :
    ∀ (tx : List RawTransaction) (now : ℤ),
      (tx = [] ∧ analyze_transactions tx now = get_demo_insights) ∨
      (∃ r, pipeline tx now = Except.ok r ∧ analyze_transactions tx now = r ∧
        r.success = some true ∧ r.error = none) ∨
      (∃ e, pipeline tx now = Except.error e ∧
        analyze_transactions tx now = fallbackReport e ∧
        (fallbackReport e).insights = get_demo_insights.insights ∧
        (fallbackReport e).healthScore = get_demo_insights.healthScore ∧
        (fallbackReport e).success = some false ∧ (fallbackReport e).error = some e) := by
  intro tx now
  by_cases htx : tx = []
  · subst htx
    exact Or.inl ⟨rfl, rfl⟩
  · cases hp : pipeline tx now with
    | ok r =>
      obtain ⟨df, ins, _, _, hr⟩ := pipeline_ok_shape tx now r hp
      exact Or.inr (Or.inl ⟨r, rfl, pipeline_ok_analyze tx now r htx hp,
        by rw [hr], by rw [hr]⟩)
    | error e =>
      exact Or.inr (Or.inr ⟨e, rfl, pipeline_error_analyze tx now e htx hp,
        rfl, rfl, rfl, rfl⟩)

/-- C10: for positive income the cash-flow sub-score is bounded in
[0, 100], is a non-increasing function of the expenses/income quotient,
and equals 100 exactly when that quotient is at most 0.7. -/
theorem calculate_cash_flow_score_props :
    ∀ (i e e2 : ℚ), 0 < i →
      (0 ≤ calculate_cash_flow_score i e ∧ calculate_cash_flow_score i e ≤ 100) ∧
      (e / i ≤ e2 / i → calculate_cash_flow_score i e2 ≤ calculate_cash_flow_score i e) ∧
      (calculate_cash_flow_score i e = 100 ↔ e / i ≤ 7 / 10) := by
  intro i e e2 hi
  refine ⟨cash_flow_score_bounds i e, ?_, ?_⟩
  · intro hr
    simp only [calculate_cash_flow_score]
    rw [if_neg (not_le.mpr hi), if_neg (not_le.mpr hi)]
    split_ifs <;>
      first
        | linarith
        | exact max_le_max le_rfl (by linarith)
        | exact max_le (by norm_num) (by linarith)
  · constructor
    · intro h100
      revert h100
      simp only [calculate_cash_flow_score]
      rw [if_neg (not_le.mpr hi)]
      split_ifs with h1 h2 h3 h4
      · intro _
        exact h1
      · intro h100
        norm_num at h100
      · intro h100
        norm_num at h100
      · intro h100
        norm_num at h100
      · intro h100
        rcases max_choice 0 (50 - (e / i - 1) * 100) with hm | hm <;> rw [hm] at h100
        · norm_num at h100
        · push_neg at h4
          linarith
    · intro hle
      simp only [calculate_cash_flow_score]
      rw [if_neg (not_le.mpr hi), if_pos hle]

theorem calculate_cash_flow_score_props_witness :
    0 < (1 : ℚ) ∧
    ((0 ≤ calculate_cash_flow_score 1 0 ∧ calculate_cash_flow_score 1 0 ≤ 100) ∧
     ((0 : ℚ) / 1 ≤ (1 : ℚ) / 1 →
       calculate_cash_flow_score 1 1 ≤ calculate_cash_flow_score 1 0) ∧
     (calculate_cash_flow_score 1 0 = 100 ↔ (0 : ℚ) / 1 ≤ 7 / 10)) :=
  ⟨by decide, calculate_cash_flow_score_props 1 0 1 (by decide)⟩

/-- C3 counterexample: `sixRecords` is a valid (normalizable) non-empty
input, yet the insights of the returned report are NOT sorted
non-increasing by (priority, confidence): the anomaly detector raises
on this input and the fallback demo insights are returned in their
literal order (priority 8 before priority 9). -/
theorem ranking_claim_counterexample :
    normalize sixRecords = Except.ok sixRecordsDf ∧ sixRecords ≠ [] ∧
    ¬ List.Pairwise insightLe (analyze_transactions sixRecords nowJun30).insights := by
  refine ⟨by decide, by decide, by decide⟩

/-- C3 amended: whenever `analyze_transactions` returns a successful
report (valid non-empty input on which the pipeline completes without
an internal error), the insight list is the 8-truncated stable
descending ranking of the concatenated analyzer output: it has length
at most 8, is sorted non-increasing by (priority, confidence), and
insights with equal key pairs keep their analyzer emission order. -/
theorem analyze_transactions_ranked_insights :
    ∀ (tx : List RawTransaction) (now : ℤ),
      (analyze_transactions tx now).success = some true →
      ∃ df ins, normalize tx = Except.ok df ∧ allInsights df now = Except.ok ins ∧
        (analyze_transactions tx now).insights = (rankInsights ins).take 8 ∧
        (analyze_transactions tx now).insights.length ≤ 8 ∧
        List.Pairwise insightLe (analyze_transactions tx now).insights ∧
        ∀ (pk : ℤ) (ck : ℚ),
          ((analyze_transactions tx now).insights.filter
              fun i => decide (i.priority = pk ∧ i.confidence = ck)) <+:
            (ins.filter fun i => decide (i.priority = pk ∧ i.confidence = ck)) := by
  intro tx now hs
  by_cases htx : tx = []
  · subst htx
    have hdemo : analyze_transactions [] now = get_demo_insights := rfl
    rw [hdemo] at hs
    simp [get_demo_insights] at hs
  · cases hp : pipeline tx now with
    | error e =>
      rw [pipeline_error_analyze tx now e htx hp] at hs
      simp [fallbackReport] at hs
    | ok r =>
      obtain ⟨df, ins, hn, ha, hr⟩ := pipeline_ok_shape tx now r hp
      have hA := pipeline_ok_analyze tx now r htx hp
      refine ⟨df, ins, hn, ha, ?_, ?_, ?_, ?_⟩
      · rw [hA, hr]
      · rw [hA, hr]
        simp [List.length_take]
      · rw [hA, hr]
        exact List.Pairwise.sublist (List.take_sublist 8 _)
          (List.sorted_insertionSort insightLe ins)
      · intro pk ck
        rw [hA, hr]
        have hkey : ∀ a b : Insight,
            decide (a.priority = pk ∧ a.confidence = ck) = true →
            decide (b.priority = pk ∧ b.confidence = ck) = true → insightLe a b := by
          intro a b hda hdb
          have hha := of_decide_eq_true hda
          have hhb := of_decide_eq_true hdb
          exact Or.inr ⟨hhb.1.trans hha.1.symm, le_of_eq (hhb.2.trans hha.2.symm)⟩
        have hstable := filter_insertionSort insightLe
          (fun i => decide (i.priority = pk ∧ i.confidence = ck)) hkey ins
        have hpre : ((rankInsights ins).take 8).filter
              (fun i => decide (i.priority = pk ∧ i.confidence = ck)) <+:
            (rankInsights ins).filter
              (fun i => decide (i.priority = pk ∧ i.confidence = ck)) :=
          List.IsPrefix.filter _ (List.take_prefix 8 (rankInsights ins))
        unfold rankInsights at hpre hstable ⊢
        rw [hstable] at hpre
        exact hpre

theorem analyze_transactions_ranked_insights_witness :
    (analyze_transactions oneRecord nowJun30).success = some true ∧
    ∃ df ins, normalize oneRecord = Except.ok df ∧
      allInsights df nowJun30 = Except.ok ins ∧
      (analyze_transactions oneRecord nowJun30).insights = (rankInsights ins).take 8 ∧
      (analyze_transactions oneRecord nowJun30).insights.length ≤ 8 ∧
      List.Pairwise insightLe (analyze_transactions oneRecord nowJun30).insights ∧
      ∀ (pk : ℤ) (ck : ℚ),
        ((analyze_transactions oneRecord nowJun30).insights.filter
            fun i => decide (i.priority = pk ∧ i.confidence = ck)) <+:
          (ins.filter fun i => decide (i.priority = pk ∧ i.confidence = ck)) :=
  ⟨by decide, analyze_transactions_ranked_insights oneRecord nowJun30 (by decide)⟩

theorem pyRound1_div10_bounds {W : ℝ} (h0 : 0 ≤ W) (h1 : W ≤ 100) :
    0 ≤ pyRound1 (W / 10) ∧ pyRound1 (W / 10) ≤ 10 := by
  unfold pyRound1
  rw [div_mul_cancel₀ _ (by norm_num : (10 : ℝ) ≠ 0)]
  have hb := @rheR_bounds W 0 100 (by exact_mod_cast h0) (by exact_mod_cast h1)
  constructor
  · have hq : (0 : ℚ) ≤ ((rheR W : ℤ) : ℚ) := by exact_mod_cast hb.1
    linarith
  · have hq : ((rheR W : ℤ) : ℚ) ≤ 100 := by exact_mod_cast hb.2
    linarith

theorem rheR_component_bounds {x : ℝ} (h0 : 0 ≤ x) (h1 : x ≤ 100) :
    0 ≤ rheR x ∧ rheR x ≤ 100 :=
  @rheR_bounds x 0 100 (by exact_mod_cast h0) (by exact_mod_cast h1)

/-- C4: for every valid non-empty input, the reported overall health
score is the weighted sub-score average divided by 10 and rounded to
one decimal; it lies in [0, 10] and each reported component lies in
[0, 100]. -/
theorem calculate_health_score_props :
    ∀ (tx : List RawTransaction) (df : List Transaction),
      normalize tx = Except.ok df → tx ≠ [] →
      (calculate_health_score df).overall =
        pyRound1 ((calculate_spending_control_score df * 0.25
          + (calculate_savings_rate_score (totalIncome df) (totalExpenses df) : ℝ) * 0.25
          + calculate_budget_adherence_score df * 0.20
          + calculate_stability_score df * 0.15
          + (calculate_cash_flow_score (totalIncome df) (totalExpenses df) : ℝ) * 0.15) / 10) ∧
      (0 ≤ (calculate_health_score df).overall ∧ (calculate_health_score df).overall ≤ 10) ∧
      (0 ≤ (calculate_health_score df).components.spendingControl ∧
        (calculate_health_score df).components.spendingControl ≤ 100) ∧
      (0 ≤ (calculate_health_score df).components.savingsRate ∧
        (calculate_health_score df).components.savingsRate ≤ 100) ∧
      (0 ≤ (calculate_health_score df).components.budgetAdherence ∧
        (calculate_health_score df).components.budgetAdherence ≤ 100) ∧
      (0 ≤ (calculate_health_score df).components.financialStability ∧
        (calculate_health_score df).components.financialStability ≤ 100) ∧
      (0 ≤ (calculate_health_score df).components.cashFlowHealth ∧
        (calculate_health_score df).components.cashFlowHealth ≤ 100) := by
  intro tx df hn htx
  have hsc := spending_control_score_bounds df
  have hsr := savings_rate_score_bounds (totalIncome df) (totalExpenses df)
  have hba := budget_adherence_score_bounds df
  have hfs := stability_score_bounds df
  have hcf := cash_flow_score_bounds (totalIncome df) (totalExpenses df)
  have hsrR : (0 : ℝ) ≤ ((calculate_savings_rate_score (totalIncome df) (totalExpenses df) : ℚ) : ℝ) ∧
      ((calculate_savings_rate_score (totalIncome df) (totalExpenses df) : ℚ) : ℝ) ≤ 100 :=
    ⟨by exact_mod_cast hsr.1, by exact_mod_cast hsr.2⟩
  have hcfR : (0 : ℝ) ≤ ((calculate_cash_flow_score (totalIncome df) (totalExpenses df) : ℚ) : ℝ) ∧
      ((calculate_cash_flow_score (totalIncome df) (totalExpenses df) : ℚ) : ℝ) ≤ 100 :=
    ⟨by exact_mod_cast hcf.1, by exact_mod_cast hcf.2⟩
  have hW0 : 0 ≤ calculate_spending_control_score df * 0.25
      + ((calculate_savings_rate_score (totalIncome df) (totalExpenses df) : ℚ) : ℝ) * 0.25
      + calculate_budget_adherence_score df * 0.2
      + calculate_stability_score df * 0.15
      + ((calculate_cash_flow_score (totalIncome df) (totalExpenses df) : ℚ) : ℝ) * 0.15 := by
    have h1 := hsc.1
    have h2 := hsrR.1
    have h3 := hba.1
    have h4 := hfs.1
    have h5 := hcfR.1
    nlinarith
  have hW1 : calculate_spending_control_score df * 0.25
      + ((calculate_savings_rate_score (totalIncome df) (totalExpenses df) : ℚ) : ℝ) * 0.25
      + calculate_budget_adherence_score df * 0.2
      + calculate_stability_score df * 0.15
      + ((calculate_cash_flow_score (totalIncome df) (totalExpenses df) : ℚ) : ℝ) * 0.15 ≤ 100 := by
    have h1 := hsc.2
    have h2 := hsrR.2
    have h3 := hba.2
    have h4 := hfs.2
    have h5 := hcfR.2
    nlinarith
  refine ⟨?_, ?_, ?_, ?_, ?_, ?_, ?_⟩
  · simp only [calculate_health_score]
    norm_num
  · simp only [calculate_health_score]
    exact pyRound1_div10_bounds hW0 hW1
  · simp only [calculate_health_score]
    exact rheR_component_bounds hsc.1 hsc.2
  · simp only [calculate_health_score]
    exact rheR_component_bounds hsrR.1 hsrR.2
  · simp only [calculate_health_score]
    exact rheR_component_bounds hba.1 hba.2
  · simp only [calculate_health_score]
    exact rheR_component_bounds hfs.1 hfs.2
  · simp only [calculate_health_score]
    exact rheR_component_bounds hcfR.1 hcfR.2

theorem calculate_health_score_props_witness :
    (normalize oneRecord = Except.ok oneRecordDf ∧ oneRecord ≠ []) ∧
    ((calculate_health_score oneRecordDf).overall =
        pyRound1 ((calculate_spending_control_score oneRecordDf * 0.25
          + (calculate_savings_rate_score (totalIncome oneRecordDf)
              (totalExpenses oneRecordDf) : ℝ) * 0.25
          + calculate_budget_adherence_score oneRecordDf * 0.20
          + calculate_stability_score oneRecordDf * 0.15
          + (calculate_cash_flow_score (totalIncome oneRecordDf)
              (totalExpenses oneRecordDf) : ℝ) * 0.15) / 10) ∧
      (0 ≤ (calculate_health_score oneRecordDf).overall ∧
        (calculate_health_score oneRecordDf).overall ≤ 10) ∧
      (0 ≤ (calculate_health_score oneRecordDf).components.spendingControl ∧
        (calculate_health_score oneRecordDf).components.spendingControl ≤ 100) ∧
      (0 ≤ (calculate_health_score oneRecordDf).components.savingsRate ∧
        (calculate_health_score oneRecordDf).components.savingsRate ≤ 100) ∧
      (0 ≤ (calculate_health_score oneRecordDf).components.budgetAdherence ∧
        (calculate_health_score oneRecordDf).components.budgetAdherence ≤ 100) ∧
      (0 ≤ (calculate_health_score oneRecordDf).components.financialStability ∧
        (calculate_health_score oneRecordDf).components.financialStability ≤ 100) ∧
      (0 ≤ (calculate_health_score oneRecordDf).components.cashFlowHealth ∧
        (calculate_health_score oneRecordDf).components.cashFlowHealth ≤ 100)) :=
  ⟨⟨by decide, by decide⟩,
    calculate_health_score_props oneRecord oneRecordDf (by decide) (by decide)⟩

theorem mem_sortedKeys {κ : Type} [DecidableEq κ] (le : κ → κ → Bool) (ks : List κ) (a : κ) :
    a ∈ sortedKeys le ks ↔ a ∈ ks := by
  unfold sortedKeys
  rw [List.Perm.mem_iff (List.perm_insertionSort _ _), List.mem_dedup]

/-- C6: the recurring-charge detector returns exactly the
(merchant, rounded amount) groups with at least two occurrences whose
average day-gap between consecutive sorted occurrence dates lies in
[20, 40], reported with their occurrence count and average interval;
in particular three $15.00 Netflix charges dated 32 days apart yield
one candidate with frequency 3 and average interval 32. -/
theorem find_recurring_charges_spec :
    (∀ (exps : List Transaction) (r : RecurringCharge),
        r ∈ find_recurring_charges exps ↔
          (2 ≤ (recurringGroup exps r.merchant r.amount).length ∧
           20 ≤ avgGap (recurringGroup exps r.merchant r.amount) ∧
           avgGap (recurringGroup exps r.merchant r.amount) ≤ 40 ∧
           r.frequency = (recurringGroup exps r.merchant r.amount).length ∧
           r.avg_interval_days = avgGap (recurringGroup exps r.merchant r.amount))) ∧
    find_recurring_charges (expensesOf netflixDf) =
      [{ merchant := "Netflix", amount := 15, frequency := 3, avg_interval_days := 32 }] := by
  constructor
  · intro exps r
    unfold find_recurring_charges
    rw [List.mem_filterMap]
    constructor
    · rintro ⟨k, _, hfk⟩
      dsimp only at hfk
      split_ifs at hfk with h2 h34
      · simp only [Option.some.injEq] at hfk
        subst hfk
        exact ⟨h2, h34.1, h34.2, rfl, rfl⟩
    · rintro ⟨h2, h3, h4, h5, h6⟩
      obtain ⟨m, a, f, avg⟩ := r
      dsimp only at h2 h3 h4 h5 h6
      refine ⟨(m, a), ?_, ?_⟩
      · rw [mem_sortedKeys, List.mem_map]
        have hne : recurringGroup exps m a ≠ [] := by
          intro hc
          rw [hc] at h2
          simp at h2
        obtain ⟨t, ht⟩ := List.exists_mem_of_ne_nil _ hne
        have hmem := List.mem_filter.mp ht
        have hpred := hmem.2
        simp only [decide_eq_true_eq] at hpred
        exact ⟨t, hmem.1, by rw [hpred.1, hpred.2]⟩
      · dsimp only
        rw [if_pos h2, if_pos ⟨h3, h4⟩, h5, h6]
  · decide

end SmartFinance








